import Mathlib

/-!
Verification of the periodic media-sampling and upload pipeline of this
repository against its specification.

The repository contains three React Native screens:

* `VideoScreen` (the progress-driven, pull-based variant): the user picks a
  video; `onVideoProgress` receives playback times and decides whether to
  extract a frame (FFmpeg, 1 s cadence) or an audio chunk (FFmpeg, 2.5 s
  cadence), which are then uploaded to a classification backend.
* `CameraScreen` (the timer-driven variant): two free-running `setInterval`
  timers (1000 ms frames, 2500 ms audio) capture from the live camera and
  microphone and upload each sample.
* `MediaUpload` (the manual variant): the user picks an image or an audio
  file which is uploaded directly.

The embedding below is shallow: each event handler becomes a pure function
from its state snapshot and an abstract environment outcome (permission
result, FFmpeg return code, HTTP outcome) to the successor state plus a
record of the externally visible effects (commands issued to the engine,
fetches performed, files deleted, errors logged, alerts shown).

Playback times are JavaScript doubles in the source; they are embedded as
rationals, which is exact for every comparison and subtraction the code
performs.
-/

namespace VideoScreen

/-- Outcome of one `await fetch(...)` / `await response.json()` pair, as seen
by the uploader.  `fetch` rejects only on a network-level failure; a response
with a non-2xx HTTP status still resolves, carrying its status code, and
`response.json()` is then attempted on its body.  `parsed status cls` is a
response (of any status) whose body parsed as JSON, with `cls` the value of
its `classification` field (`none` when the field is absent). -/
inductive UploadOutcome where
  | networkError
  | parseError (status : Nat)
  | parsed (status : Nat) (classification : Option String)
  deriving DecidableEq

/-- Outcome of one `FFmpegKit.execute` call: a success return code, a
non-success return code, or a thrown exception. -/
inductive EngineOutcome where
  | success
  | failure
  | thrown
  deriving DecidableEq

/-- JavaScript `a || b` on an optional string: the fallback is used when the
field is absent or is the empty string (both falsy). -/
def jsOr (v : Option String) (dflt : String) : String :=
  match v with
  | none => dflt
  | some s => if s = "" then dflt else s

/-- The React state of the video screen (the `useState` hooks of
`App` in the progress-driven variant). -/
structure AppState where
  videoUri : Option String
  processingStatus : String
  audioClassification : String
  imageClassification : String
  lastFrameTime : ℚ
  lastAudioTime : ℚ
  isProcessing : Bool
  deriving DecidableEq

/-- The initial hook values: no video, empty strings, both last-sampled
times 0, not processing. -/
def initialState : AppState :=
  { videoUri := none
    processingStatus := ""
    audioClassification := ""
    imageClassification := ""
    lastFrameTime := 0
    lastAudioTime := 0
    isProcessing := false }

/-- Externally visible effects of one uploader call. -/
structure UploadFx where
  fetches : Nat
  fileDeleted : Bool
  errLogged : Bool
  deriving DecidableEq

/-- Embedding of `processVideoFrame` (the frame uploader): POST the frame to
`/predict_image`, parse the JSON response, set the image label from its
`classification` field (with fallback), then delete the frame file.  The
HTTP status of the response is never inspected.  A thrown error (network or
parse) is caught and logged, skipping both the label update and the
deletion. -/
def processVideoFrame (outcome : UploadOutcome) (s : AppState) :
    AppState × UploadFx :=
  match outcome with
  | .networkError => (s, { fetches := 1, fileDeleted := false, errLogged := true })
  | .parseError _ => (s, { fetches := 1, fileDeleted := false, errLogged := true })
  | .parsed _ cls =>
      ({ s with imageClassification := jsOr cls "No classification" },
       { fetches := 1, fileDeleted := true, errLogged := false })

/-- Embedding of `processAudioChunk` (the audio uploader): same shape as
`processVideoFrame`, targeting `/predict` and the audio label. -/
def processAudioChunk (outcome : UploadOutcome) (s : AppState) :
    AppState × UploadFx :=
  match outcome with
  | .networkError => (s, { fetches := 1, fileDeleted := false, errLogged := true })
  | .parseError _ => (s, { fetches := 1, fileDeleted := false, errLogged := true })
  | .parsed _ cls =>
      ({ s with audioClassification := jsOr cls "No classification" },
       { fetches := 1, fileDeleted := true, errLogged := false })

/-- The synchronous decision taken by one `onVideoProgress` callback: which
extractions are initiated on this trigger, and the last-sampled times after
the two `setLastFrameTime` / `setLastAudioTime` calls. -/
structure ProgressFire where
  fireFrame : Bool
  fireAudio : Bool
  lastFrameTime : ℚ
  lastAudioTime : ℚ
  deriving DecidableEq

/-- Embedding of `onVideoProgress`: on a trigger at `currentTime`, initiate
frame extraction when `currentTime - lastFrameTime >= 1`, and audio
extraction when `currentTime - lastAudioTime >= 2.5`, recording the trigger
time as the new last-sampled time of each modality that fired.  The decision
reads only the two last-sampled times of the state snapshot. -/
def onVideoProgress (currentTime : ℚ) (s : AppState) : ProgressFire :=
  let ff : Bool := decide (currentTime - s.lastFrameTime ≥ 1)
  let fa : Bool := decide (currentTime - s.lastAudioTime ≥ 2.5)
  { fireFrame := ff
    fireAudio := fa
    lastFrameTime := if ff then currentTime else s.lastFrameTime
    lastAudioTime := if fa then currentTime else s.lastAudioTime }

/-- The `frames` scratch directory created by `createSubdirectories`:
`<cache>/video_processing/frames`. -/
def framesDir (cacheDir : String) : String :=
  cacheDir ++ "/video_processing" ++ "/frames"

/-- The `audio` scratch directory created by `createSubdirectories`:
`<cache>/video_processing/audio`. -/
def audioDirOf (cacheDir : String) : String :=
  cacheDir ++ "/video_processing" ++ "/audio"

/-- The frame output path built in `captureFrame`:
`<framesDir>/frame_<Math.floor(time)>.jpg`. -/
def framePathAt (cacheDir : String) (time : ℚ) : String :=
  framesDir cacheDir ++ "/frame_" ++ toString ⌊time⌋ ++ ".jpg"

/-- The audio-chunk output path built in `processAudioAtTime`:
`<audioDir>/chunk_<Math.floor(time)>.wav`. -/
def chunkPathAt (cacheDir : String) (time : ℚ) : String :=
  audioDirOf cacheDir ++ "/chunk_" ++ toString ⌊time⌋ ++ ".wav"

/-- The FFmpeg command string built in `captureFrame`, with `timeStr` the
JavaScript rendering of the number `time` interpolated into the template
literal. -/
def frameCmd (timeStr uri framePath : String) : String :=
  "-ss " ++ timeStr ++ " -i \"" ++ uri ++ "\" -vframes 1 -q:v 2 \"" ++
    framePath ++ "\""

/-- The FFmpeg command string built in `processAudioAtTime`. -/
def audioCmd (timeStr uri chunkPath : String) : String :=
  "-ss " ++ timeStr ++ " -i \"" ++ uri ++
    "\" -t 2.5 -acodec pcm_s16le -ar 16000 -ac 1 \"" ++ chunkPath ++ "\""

/-- JavaScript truthiness of the `videoUri` state: `!videoUri` holds for
`null` and for the empty string. -/
def uriFalsy : Option String → Bool
  | none => true
  | some s => s = ""

/-- Externally visible effects of one extraction sequence. -/
structure CaptureFx where
  engineCalls : List String
  fetches : Nat
  fileDeleted : Bool
  errLogged : Bool
  deriving DecidableEq

/-- Embedding of `captureFrame time`: bail out when no video is selected;
otherwise mark `isProcessing`, ensure the scratch directories, issue the
frame-extraction command, and on an engine success return code run the
uploader; a non-success return code or a thrown error is logged with no
upload and no retry; the `finally` block clears `isProcessing` on every exit
path.  `timeStr` and `timeFixedStr` are the JavaScript renderings of `time`
and `time.toFixed(1)` used in the command and the status text. -/
def captureFrame (time : ℚ) (timeStr timeFixedStr cacheDir : String)
    (engine : EngineOutcome) (upload : UploadOutcome) (s : AppState) :
    AppState × CaptureFx :=
  if uriFalsy s.videoUri then
    (s, { engineCalls := [], fetches := 0, fileDeleted := false, errLogged := false })
  else
    let uri := s.videoUri.getD ""
    let s1 := { s with
                isProcessing := true
                processingStatus := "Extracting frame at " ++ timeFixedStr ++ "s..." }
    let cmd := frameCmd timeStr uri (framePathAt cacheDir time)
    match engine with
    | .success =>
        let r := processVideoFrame upload s1
        ({ r.1 with isProcessing := false },
         { engineCalls := [cmd], fetches := r.2.fetches,
           fileDeleted := r.2.fileDeleted, errLogged := r.2.errLogged })
    | .failure =>
        ({ s1 with isProcessing := false },
         { engineCalls := [cmd], fetches := 0, fileDeleted := false, errLogged := true })
    | .thrown =>
        ({ s1 with isProcessing := false },
         { engineCalls := [cmd], fetches := 0, fileDeleted := false, errLogged := true })

/-- Embedding of `processAudioAtTime time`: same control flow as
`captureFrame`, issuing the 2.5 s audio-extraction command and running the
audio uploader on success. -/
def processAudioAtTime (time : ℚ) (timeStr timeFixedStr cacheDir : String)
    (engine : EngineOutcome) (upload : UploadOutcome) (s : AppState) :
    AppState × CaptureFx :=
  if uriFalsy s.videoUri then
    (s, { engineCalls := [], fetches := 0, fileDeleted := false, errLogged := false })
  else
    let uri := s.videoUri.getD ""
    let s1 := { s with
                isProcessing := true
                processingStatus := "Extracting audio chunk at " ++ timeFixedStr ++ "s..." }
    let cmd := audioCmd timeStr uri (chunkPathAt cacheDir time)
    match engine with
    | .success =>
        let r := processAudioChunk upload s1
        ({ r.1 with isProcessing := false },
         { engineCalls := [cmd], fetches := r.2.fetches,
           fileDeleted := r.2.fileDeleted, errLogged := r.2.errLogged })
    | .failure =>
        ({ s1 with isProcessing := false },
         { engineCalls := [cmd], fetches := 0, fileDeleted := false, errLogged := true })
    | .thrown =>
        ({ s1 with isProcessing := false },
         { engineCalls := [cmd], fetches := 0, fileDeleted := false, errLogged := true })

/-- Result of one underlying `PermissionsAndroid` request for a single
permission. -/
inductive PermResult where
  | granted
  | denied
  | neverAskAgain
  deriving DecidableEq

/-- Externally visible effects of the permission-request step. -/
structure PermFx where
  settingsRedirect : Bool
  errLogged : Bool
  deriving DecidableEq

/-- Embedding of `requestPermissions`: on a non-Android platform return
`true` without consulting the permission API.  On Android with API level at
least 33, request `READ_MEDIA_VIDEO` (`single`); `GRANTED` yields `true`,
`NEVER_ASK_AGAIN` shows the settings-redirect alert and yields `false`, any
other result yields `false`.  Below API 33, request the two legacy storage
permissions (`multi`) and succeed only when every result is `GRANTED`.  A
thrown error from either request is caught, logged, and yields `false`. -/
def requestPermissions (osAndroid : Bool) (version : Nat)
    (single : Except Unit PermResult)
    (multi : Except Unit (List PermResult)) : Bool × PermFx :=
  if !osAndroid then (true, { settingsRedirect := false, errLogged := false })
  else if 33 ≤ version then
    match single with
    | .error _ => (false, { settingsRedirect := false, errLogged := true })
    | .ok r =>
        if r = .granted then (true, { settingsRedirect := false, errLogged := false })
        else if r = .neverAskAgain then
          (false, { settingsRedirect := true, errLogged := false })
        else (false, { settingsRedirect := false, errLogged := false })
  else
    match multi with
    | .error _ => (false, { settingsRedirect := false, errLogged := true })
    | .ok rs =>
        (rs.all (fun r => r = .granted), { settingsRedirect := false, errLogged := false })

/-- Outcome of the document-picker call in `pickVideo`: a picked file (uri
and display name), an empty result, or a thrown error (e.g. cancellation). -/
inductive PickOutcome where
  | picked (uri name : String)
  | noResult
  | threw
  deriving DecidableEq

/-- Externally visible effects of one `pickVideo` call. -/
structure PickFx where
  pickAttempted : Bool
  alertShown : Bool
  deriving DecidableEq

/-- Translation performed on a picked uri before it is stored: a
`content://` uri is copied by `copyContentUriToLocal` to the fixed cache
file and replaced by that file uri; any other uri is kept as is. -/
def finalUriOf (cacheDir uri : String) : String :=
  if uri.startsWith "content://" then
    "file://" ++ (cacheDir ++ "/input_video_temp.mp4")
  else uri

/-- Embedding of `pickVideo`: request permissions; without them show the
permission-denied alert and stop.  Otherwise run the picker: a picked file
has its uri translated and stored, the status text set, both classification
labels cleared and both last-sampled times reset to 0; an empty picker
result changes nothing; a thrown picker error shows the failure alert and
changes nothing. -/
def pickVideo (cacheDir : String) (osAndroid : Bool) (version : Nat)
    (single : Except Unit PermResult) (multi : Except Unit (List PermResult))
    (pickOutcome : PickOutcome) (s : AppState) : AppState × PickFx :=
  if !(requestPermissions osAndroid version single multi).1 then
    (s, { pickAttempted := false, alertShown := true })
  else
    match pickOutcome with
    | .threw => (s, { pickAttempted := true, alertShown := true })
    | .noResult => (s, { pickAttempted := true, alertShown := false })
    | .picked uri name =>
        ({ s with
           videoUri := some (finalUriOf cacheDir uri)
           processingStatus := "Video selected: " ++ name
           audioClassification := ""
           imageClassification := ""
           lastFrameTime := 0
           lastAudioTime := 0 },
         { pickAttempted := true, alertShown := false })

end VideoScreen

namespace CameraScreen

/-- The two interval timers installed by the permission-gated `useEffect`,
as their periods in milliseconds (`none` = timer not running). -/
structure Timers where
  frameMs : Option Nat
  audioMs : Option Nat
  deriving DecidableEq

/-- Embedding of the timer-setup `useEffect` body: with permission granted
it starts the audio-chunk interval at 2500 ms and the frame interval at
1000 ms; without permission no timer is started. -/
def effectTimers (hasPermission : Bool) : Timers :=
  if hasPermission then { frameMs := some 1000, audioMs := some 2500 }
  else { frameMs := none, audioMs := none }

/-- Embedding of the `useEffect` cleanup function: both intervals are
cleared, whatever was running. -/
def effectCleanup (_t : Timers) : Timers :=
  { frameMs := none, audioMs := none }

/-- Embedding of `startRecording` acting on the `isRecording` ref: when not
already recording, set the ref and start the recorder; otherwise do
nothing.  Returns the new ref value and whether a recording was started. -/
def startRecording (isRecording : Bool) : Bool × Bool :=
  if !isRecording then (true, true) else (isRecording, false)

/-- Embedding of `stopRecording` acting on the `isRecording` ref: when
recording, stop and return the audio file name; otherwise return `null`.
Returns the new ref value and the optional file. -/
def stopRecording (isRecording : Bool) : Bool × Option String :=
  if isRecording then (false, some "audio_chunk.wav") else (isRecording, none)

/-- Embedding of the frame-timer callback `processVideoFrame` in the
timer-driven variant, reduced to its initiation decision: it proceeds to
`takePhoto` and the upload whenever `cameraRef.current` is set.
`frameInFlight` is a ghost flag recording whether a previous frame
capture-and-upload sequence is still running; the source callback consults
no such guard, so the result does not depend on it. -/
def processVideoFrame (cameraReady : Bool) (_frameInFlight : Bool) : Bool :=
  cameraReady

end CameraScreen

namespace MediaUpload

/-- The React state of the manual-upload screen. -/
structure MState where
  processingStatus : String
  imageClassification : String
  audioClassification : String
  isProcessing : Bool
  deriving DecidableEq

/-- Externally visible effects of one manual upload. -/
structure MUploadFx where
  fetches : Nat
  errLogged : Bool
  alertShown : Bool
  deriving DecidableEq

/-- Embedding of `uploadImage`: set `isProcessing`, POST the file to
`/predict_image`, parse the JSON response and set the image label from its
`predicted_class` field (with fallback) plus a completion status; a thrown
error (network or parse) is caught, logged, and shows an alert; the
`finally` block clears `isProcessing` on every path.  The HTTP status of a
resolved response is never inspected. -/
def uploadImage (outcome : VideoScreen.UploadOutcome) (s : MState) :
    MState × MUploadFx :=
  match outcome with
  | .networkError =>
      ({ s with isProcessing := false },
       { fetches := 1, errLogged := true, alertShown := true })
  | .parseError _ =>
      ({ s with isProcessing := false },
       { fetches := 1, errLogged := true, alertShown := true })
  | .parsed _ cls =>
      ({ s with
         imageClassification := VideoScreen.jsOr cls "No classification"
         processingStatus := "Image classification complete."
         isProcessing := false },
       { fetches := 1, errLogged := false, alertShown := false })

/-- Embedding of `uploadAudio`: as `uploadImage`, targeting `/predict` and
reading the `emotion` field of the response. -/
def uploadAudio (outcome : VideoScreen.UploadOutcome) (s : MState) :
    MState × MUploadFx :=
  match outcome with
  | .networkError =>
      ({ s with isProcessing := false },
       { fetches := 1, errLogged := true, alertShown := true })
  | .parseError _ =>
      ({ s with isProcessing := false },
       { fetches := 1, errLogged := true, alertShown := true })
  | .parsed _ cls =>
      ({ s with
         audioClassification := VideoScreen.jsOr cls "No classification"
         processingStatus := "Audio classification complete."
         isProcessing := false },
       { fetches := 1, errLogged := false, alertShown := false })

/-- Embedding of the manual screen's `requestPermissions` (the chosen media
type only selects which permission identifier is requested and does not
change the control flow): on non-Android return `true`; at API 33 or later
a single media permission is requested with the `GRANTED` /
`NEVER_ASK_AGAIN` / other handling; below 33 a single legacy storage
permission is requested and only `GRANTED` yields `true`; a thrown error is
caught, logged, and yields `false`. -/
def requestPermissions (osAndroid : Bool) (version : Nat)
    (single : Except Unit VideoScreen.PermResult)
    (legacy : Except Unit VideoScreen.PermResult) :
    Bool × VideoScreen.PermFx :=
  if !osAndroid then (true, { settingsRedirect := false, errLogged := false })
  else if 33 ≤ version then
    match single with
    | .error _ => (false, { settingsRedirect := false, errLogged := true })
    | .ok r =>
        if r = .granted then (true, { settingsRedirect := false, errLogged := false })
        else if r = .neverAskAgain then
          (false, { settingsRedirect := true, errLogged := false })
        else (false, { settingsRedirect := false, errLogged := false })
  else
    match legacy with
    | .error _ => (false, { settingsRedirect := false, errLogged := true })
    | .ok r => (r = VideoScreen.PermResult.granted,
                { settingsRedirect := false, errLogged := false })

end MediaUpload

/-- Transcription of the spec's frame extraction contract: seek to `t`,
extract exactly 1 frame, encode as JPEG quality level 2, output path
`frame_<floor(t)>.jpg` under `<cache>/video_processing/frames/`. -/
def specFrameCommand (timeStr : String) (t : ℚ) (uri cacheDir : String) : String :=
  "-ss " ++ timeStr ++ " -i \"" ++ uri ++ "\" -vframes 1 -q:v 2 \"" ++
    (cacheDir ++ "/video_processing/frames/frame_" ++ toString ⌊t⌋ ++ ".jpg") ++ "\""

/-- Transcription of the spec's audio extraction contract: seek to `t`,
extract a window of fixed duration 2.5 s, re-encode to 16-bit PCM, 16 kHz,
mono, WAV container, output path `chunk_<floor(t)>.wav` under
`<cache>/video_processing/audio/`. -/
def specAudioCommand (timeStr : String) (t : ℚ) (uri cacheDir : String) : String :=
  "-ss " ++ timeStr ++ " -i \"" ++ uri ++ "\" -t 2.5 -acodec pcm_s16le -ar 16000 -ac 1 \"" ++
    (cacheDir ++ "/video_processing/audio/chunk_" ++ toString ⌊t⌋ ++ ".wav") ++ "\""

/-- C1, counterexample.  An upload that resolves with HTTP status 500 and a
JSON body without a `classification` field does not leave the previous
image label (here `"cat"`) unchanged: the uploader never inspects the HTTP
status, so the label is overwritten with the fallback text. -/
theorem c1_counterexample :
    (VideoScreen.processVideoFrame (VideoScreen.UploadOutcome.parsed 500 none)
        ⟨some "file:///tmp/in.mp4", "", "", "cat", 0, 0, false⟩).1.imageClassification
      ≠ "cat" := by
  simp [VideoScreen.processVideoFrame, VideoScreen.jsOr]

/-- C1, amended.  When the upload fails with a network error or with a JSON
parse error, the state (in particular the classification label) is left
unchanged, the error is logged, and exactly one fetch is performed (no
retry); but a non-2xx HTTP status alone is not treated as a failure: the
response body is still parsed and, whenever it parses, the label is
overwritten with its `classification` field or the fallback text, for every
status including 500.  The manual-upload screen behaves the same way. -/
theorem c1_upload_failure_handling :
    ∀ (s : VideoScreen.AppState) (m : MediaUpload.MState) (st : Nat),
      (VideoScreen.processVideoFrame .networkError s).1 = s ∧
      (VideoScreen.processVideoFrame .networkError s).2.errLogged = true ∧
      (VideoScreen.processVideoFrame .networkError s).2.fetches = 1 ∧
      (VideoScreen.processVideoFrame (.parseError st) s).1 = s ∧
      (VideoScreen.processVideoFrame (.parseError st) s).2.errLogged = true ∧
      (VideoScreen.processVideoFrame (.parseError st) s).2.fetches = 1 ∧
      (VideoScreen.processAudioChunk .networkError s).1 = s ∧
      (VideoScreen.processAudioChunk .networkError s).2.errLogged = true ∧
      (VideoScreen.processAudioChunk (.parseError st) s).1 = s ∧
      (VideoScreen.processAudioChunk (.parseError st) s).2.errLogged = true ∧
      (∀ cls, (VideoScreen.processVideoFrame (.parsed st cls) s).1.imageClassification =
          VideoScreen.jsOr cls "No classification") ∧
      (∀ cls, (VideoScreen.processAudioChunk (.parsed st cls) s).1.audioClassification =
          VideoScreen.jsOr cls "No classification") ∧
      (MediaUpload.uploadImage .networkError m).1.imageClassification = m.imageClassification ∧
      (MediaUpload.uploadImage .networkError m).2.errLogged = true ∧
      (MediaUpload.uploadImage (.parsed st none) m).1.imageClassification = "No classification" := by
  intro s m st
  refine ⟨rfl, rfl, rfl, rfl, rfl, rfl, rfl, rfl, rfl, rfl, fun cls => rfl, fun cls => rfl,
    rfl, rfl, rfl⟩

/-- C2, counterexample.  A progress trigger arriving while `isProcessing`
is `true` still initiates both a frame extraction and an audio extraction:
the progress handler never consults the flag, and `captureFrame` itself
issues its engine command even from a state with `isProcessing = true`. -/
theorem c2_counterexample :
    (VideoScreen.onVideoProgress 3
        ⟨some "file:///tmp/in.mp4", "", "", "", 0, 0, true⟩).fireFrame = true ∧
    (VideoScreen.onVideoProgress 3
        ⟨some "file:///tmp/in.mp4", "", "", "", 0, 0, true⟩).fireAudio = true ∧
    (VideoScreen.captureFrame 3 "3" "3.0" "/cache" .success (.parsed 200 (some "cat"))
        ⟨some "file:///tmp/in.mp4", "", "", "", 0, 0, true⟩).2.engineCalls.length = 1 := by
  refine ⟨?_, ?_, ?_⟩
  · simp [VideoScreen.onVideoProgress]
  · simp [VideoScreen.onVideoProgress]
    norm_num
  · rfl

/-- C2, amended.  The serialized-variant progress handler does not gate on
`isProcessing` at all: its decision is independent of the flag, when both
thresholds pass on one trigger both modalities fire on that same trigger,
and an extraction is initiated (its engine command issued) even from a
state in which `isProcessing` is already `true`.  The flag is set and
cleared by each extraction but only disables the video-pick button. -/
theorem c2_no_processing_gate :
    (∀ (t : ℚ) (s : VideoScreen.AppState) (b : Bool),
        VideoScreen.onVideoProgress t { s with isProcessing := b } =
          VideoScreen.onVideoProgress t s) ∧
    (∀ (t : ℚ) (s : VideoScreen.AppState),
        t - s.lastFrameTime ≥ 1 → t - s.lastAudioTime ≥ 2.5 →
          (VideoScreen.onVideoProgress t s).fireFrame = true ∧
          (VideoScreen.onVideoProgress t s).fireAudio = true) ∧
    (∀ (time : ℚ) (ts tfs cache : String) (eng : VideoScreen.EngineOutcome)
        (upl : VideoScreen.UploadOutcome) (s : VideoScreen.AppState),
        VideoScreen.uriFalsy s.videoUri = false →
          (VideoScreen.captureFrame time ts tfs cache eng upl
              { s with isProcessing := true }).2.engineCalls.length = 1) := by
  refine ⟨?_, ?_, ?_⟩
  · intro t s b
    simp [VideoScreen.onVideoProgress]
  · intro t s h1 h2
    constructor <;> simp [VideoScreen.onVideoProgress] <;> assumption
  · intro time ts tfs cache eng upl s h
    have h' : VideoScreen.uriFalsy ({ s with isProcessing := true } :
        VideoScreen.AppState).videoUri = false := h
    cases eng <;> simp [VideoScreen.captureFrame, h']

/-- C2, witness for the amended theorem at a concrete trigger. -/
theorem c2_no_processing_gate_witness :
    (VideoScreen.onVideoProgress 4
        ⟨some "file:///v.mp4", "", "", "", 1, 1, true⟩).fireFrame = true ∧
    (VideoScreen.onVideoProgress 4
        ⟨some "file:///v.mp4", "", "", "", 1, 1, true⟩).fireAudio = true :=
  c2_no_processing_gate.2.1 4 ⟨some "file:///v.mp4", "", "", "", 1, 1, true⟩
    (by norm_num) (by norm_num)

/-- C3.  On each progress trigger at time `t`: frame extraction fires iff
`t - lastFrameTime >= 1`, audio extraction fires iff
`t - lastAudioTime >= 2.5`, and each modality that fires has its
last-sampled time set to `t` in the very decision (before any extraction
completes).  Boundary: from the initial state (`lastFrameTime = 0`) a
trigger at `t = 0` does not fire a frame and a trigger at `t = 1` does.
Debounce: for triggers `t1 < t2` with `t2 - t1 < 1`, if a frame already
fired at or after `t1` (so `lastFrameTime >= t1`), no frame fires at
`t2`. -/
theorem c3_progress_scheduling :
    (∀ (t : ℚ) (s : VideoScreen.AppState),
        ((VideoScreen.onVideoProgress t s).fireFrame = true ↔ t - s.lastFrameTime ≥ 1) ∧
        ((VideoScreen.onVideoProgress t s).fireAudio = true ↔ t - s.lastAudioTime ≥ 2.5) ∧
        ((VideoScreen.onVideoProgress t s).fireFrame = true →
            (VideoScreen.onVideoProgress t s).lastFrameTime = t) ∧
        ((VideoScreen.onVideoProgress t s).fireAudio = true →
            (VideoScreen.onVideoProgress t s).lastAudioTime = t)) ∧
    (VideoScreen.onVideoProgress 0 VideoScreen.initialState).fireFrame = false ∧
    (VideoScreen.onVideoProgress 1 VideoScreen.initialState).fireFrame = true ∧
    (∀ (t1 t2 : ℚ) (s : VideoScreen.AppState),
        t1 < t2 → t2 - t1 < 1 → t1 ≤ s.lastFrameTime →
          (VideoScreen.onVideoProgress t2 s).fireFrame = false) := by
  refine ⟨?_, ?_, ?_, ?_⟩
  · intro t s
    refine ⟨by simp [VideoScreen.onVideoProgress], by simp [VideoScreen.onVideoProgress],
      ?_, ?_⟩
    · intro h
      simp only [VideoScreen.onVideoProgress] at h ⊢
      simp only [h, if_true]
    · intro h
      simp only [VideoScreen.onVideoProgress] at h ⊢
      simp only [h, if_true]
  · simp [VideoScreen.onVideoProgress, VideoScreen.initialState]
  · simp [VideoScreen.onVideoProgress, VideoScreen.initialState]
  · intro t1 t2 s h1 h2 h3
    simp only [VideoScreen.onVideoProgress, decide_eq_false_iff_not]
    intro h
    linarith

/-- C3, witness: with `lastFrameTime = 1`, triggers at `t1 = 1` and
`t2 = 3/2` are less than one second apart, so no frame fires at `t2`. -/
theorem c3_progress_scheduling_witness :
    (VideoScreen.onVideoProgress (3 / 2)
        ⟨none, "", "", "", 1, 0, false⟩).fireFrame = false :=
  c3_progress_scheduling.2.2.2 1 (3 / 2) ⟨none, "", "", "", 1, 0, false⟩
    (by norm_num) (by norm_num) (by norm_num)

/-- C4, counterexample.  The frame-timer callback of the timer-driven
variant initiates a new capture even while a previous frame
capture-and-upload sequence is still in flight (second argument `true`):
the source callback consults no per-modality in-flight guard for frames,
so overlapping frame work is not prevented. -/
theorem c4_counterexample : CameraScreen.processVideoFrame true true = true := rfl

/-- C4, amended.  With permission confirmed the effect starts a 1000 ms
frame timer and an independent 2500 ms audio timer (and none without
permission), and its cleanup clears both timers.  Only the audio modality
has an in-flight guard: `startRecording` is a no-op while the
`isRecording` ref is set and `stopRecording` a no-op while it is clear;
the frame callback initiates a capture whenever the camera ref is set,
independently of any in-flight frame work. -/
theorem c4_timers_and_guards :
    CameraScreen.effectTimers true = { frameMs := some 1000, audioMs := some 2500 } ∧
    CameraScreen.effectTimers false = { frameMs := none, audioMs := none } ∧
    (∀ t, CameraScreen.effectCleanup t = { frameMs := none, audioMs := none }) ∧
    CameraScreen.startRecording false = (true, true) ∧
    CameraScreen.startRecording true = (true, false) ∧
    CameraScreen.stopRecording true = (false, some "audio_chunk.wav") ∧
    CameraScreen.stopRecording false = (false, none) ∧
    (∀ ready busy, CameraScreen.processVideoFrame ready busy = ready) :=
  ⟨rfl, rfl, fun _ => rfl, rfl, rfl, rfl, rfl, fun _ _ => rfl⟩

/-- C5, counterexample.  After an upload attempt that fails with a network
error (one fetch was performed), the frame uploader does not delete the
sample's backing file: deletion is reached only on the success path. -/
theorem c5_counterexample :
    (VideoScreen.processVideoFrame VideoScreen.UploadOutcome.networkError
        ⟨some "file:///tmp/in.mp4", "", "", "", 0, 0, true⟩).2.fetches = 1 ∧
    (VideoScreen.processVideoFrame VideoScreen.UploadOutcome.networkError
        ⟨some "file:///tmp/in.mp4", "", "", "", 0, 0, true⟩).2.fileDeleted = false :=
  ⟨rfl, rfl⟩

/-- C5, amended.  Each uploader deletes the sample's backing file exactly
when the upload succeeds (the fetch resolved and its body parsed as JSON);
on a network error or a parse error the file is not deleted and
persists. -/
theorem c5_deletion_on_success_only :
    ∀ (s : VideoScreen.AppState) (st : Nat) (cls : Option String),
      (VideoScreen.processVideoFrame (.parsed st cls) s).2.fileDeleted = true ∧
      (VideoScreen.processVideoFrame .networkError s).2.fileDeleted = false ∧
      (VideoScreen.processVideoFrame (.parseError st) s).2.fileDeleted = false ∧
      (VideoScreen.processAudioChunk (.parsed st cls) s).2.fileDeleted = true ∧
      (VideoScreen.processAudioChunk .networkError s).2.fileDeleted = false ∧
      (VideoScreen.processAudioChunk (.parseError st) s).2.fileDeleted = false :=
  fun _ _ _ => ⟨rfl, rfl, rfl, rfl, rfl, rfl⟩

/-- C6.  Under granted permissions, picking a video resets the pipeline
state from any previous state: both last-sampled times become 0 and both
classification labels are cleared; and picking the same source again from
the reset state leaves the state unchanged (idempotence). -/
theorem c6_pick_resets_state :
    ∀ (cache : String) (osA : Bool) (v : Nat)
      (single : Except Unit VideoScreen.PermResult)
      (multi : Except Unit (List VideoScreen.PermResult))
      (uri name : String) (s : VideoScreen.AppState),
      (VideoScreen.requestPermissions osA v single multi).1 = true →
      ((VideoScreen.pickVideo cache osA v single multi (.picked uri name) s).1.lastFrameTime = 0 ∧
       (VideoScreen.pickVideo cache osA v single multi (.picked uri name) s).1.lastAudioTime = 0 ∧
       (VideoScreen.pickVideo cache osA v single multi (.picked uri name) s).1.imageClassification = "" ∧
       (VideoScreen.pickVideo cache osA v single multi (.picked uri name) s).1.audioClassification = "" ∧
       (VideoScreen.pickVideo cache osA v single multi (.picked uri name)
           (VideoScreen.pickVideo cache osA v single multi (.picked uri name) s).1).1 =
         (VideoScreen.pickVideo cache osA v single multi (.picked uri name) s).1) := by
  intro cache osA v single multi uri name s h
  simp [VideoScreen.pickVideo, h]

/-- C6, witness: a concrete pick on a non-Android platform (permissions
trivially granted) from a dirty state. -/
theorem c6_pick_resets_state_witness :
    ((VideoScreen.pickVideo "/c" false 0 (.ok .granted) (.ok [])
        (.picked "content://media/1" "v.mp4")
        ⟨some "file:///old.mp4", "x", "happy", "cat", 7, 9, true⟩).1.lastFrameTime = 0 ∧
     (VideoScreen.pickVideo "/c" false 0 (.ok .granted) (.ok [])
        (.picked "content://media/1" "v.mp4")
        ⟨some "file:///old.mp4", "x", "happy", "cat", 7, 9, true⟩).1.lastAudioTime = 0 ∧
     (VideoScreen.pickVideo "/c" false 0 (.ok .granted) (.ok [])
        (.picked "content://media/1" "v.mp4")
        ⟨some "file:///old.mp4", "x", "happy", "cat", 7, 9, true⟩).1.imageClassification = "" ∧
     (VideoScreen.pickVideo "/c" false 0 (.ok .granted) (.ok [])
        (.picked "content://media/1" "v.mp4")
        ⟨some "file:///old.mp4", "x", "happy", "cat", 7, 9, true⟩).1.audioClassification = "" ∧
     (VideoScreen.pickVideo "/c" false 0 (.ok .granted) (.ok [])
        (.picked "content://media/1" "v.mp4")
        (VideoScreen.pickVideo "/c" false 0 (.ok .granted) (.ok [])
           (.picked "content://media/1" "v.mp4")
           ⟨some "file:///old.mp4", "x", "happy", "cat", 7, 9, true⟩).1).1 =
       (VideoScreen.pickVideo "/c" false 0 (.ok .granted) (.ok [])
          (.picked "content://media/1" "v.mp4")
          ⟨some "file:///old.mp4", "x", "happy", "cat", 7, 9, true⟩).1) :=
  c6_pick_resets_state "/c" false 0 (.ok .granted) (.ok []) "content://media/1" "v.mp4"
    ⟨some "file:///old.mp4", "x", "happy", "cat", 7, 9, true⟩ rfl

/-- Folding of the path literals of the frame scratch directory, used to
compare the source command with the spec's transcription. -/
theorem append_fold_frames (x : String) :
    "/video_processing" ++ ("/frames" ++ ("/frame_" ++ x)) =
      "/video_processing/frames/frame_" ++ x := by
  rw [← String.append_assoc, ← String.append_assoc]
  rfl

/-- Folding of the path literals of the audio scratch directory. -/
theorem append_fold_audio (x : String) :
    "/video_processing" ++ ("/audio" ++ ("/chunk_" ++ x)) =
      "/video_processing/audio/chunk_" ++ x := by
  rw [← String.append_assoc, ← String.append_assoc]
  rfl

/-- C7.  Whenever a video is selected, the command each extraction hands to
the engine is exactly the spec's contract: for a frame, seek to `t`,
extract 1 frame at JPEG quality level 2 into
`<cache>/video_processing/frames/frame_<floor(t)>.jpg`; for audio, seek to
`t`, extract a 2.5 s window re-encoded to 16-bit PCM, 16 kHz, mono, into
`<cache>/video_processing/audio/chunk_<floor(t)>.wav`. -/
theorem c7_engine_command_contract :
    ∀ (time : ℚ) (ts tfs cache : String) (eng : VideoScreen.EngineOutcome)
      (upl : VideoScreen.UploadOutcome) (s : VideoScreen.AppState),
      VideoScreen.uriFalsy s.videoUri = false →
      (VideoScreen.captureFrame time ts tfs cache eng upl s).2.engineCalls =
        [specFrameCommand ts time (s.videoUri.getD "") cache] ∧
      (VideoScreen.processAudioAtTime time ts tfs cache eng upl s).2.engineCalls =
        [specAudioCommand ts time (s.videoUri.getD "") cache] := by
  intro time ts tfs cache eng upl s h
  have hframe : VideoScreen.frameCmd ts (s.videoUri.getD "")
      (VideoScreen.framePathAt cache time) =
      specFrameCommand ts time (s.videoUri.getD "") cache := by
    simp only [VideoScreen.frameCmd, VideoScreen.framePathAt, VideoScreen.framesDir,
      specFrameCommand, String.append_assoc, append_fold_frames]
  have haudio : VideoScreen.audioCmd ts (s.videoUri.getD "")
      (VideoScreen.chunkPathAt cache time) =
      specAudioCommand ts time (s.videoUri.getD "") cache := by
    simp only [VideoScreen.audioCmd, VideoScreen.chunkPathAt, VideoScreen.audioDirOf,
      specAudioCommand, String.append_assoc, append_fold_audio]
  cases eng <;>
    simp [VideoScreen.captureFrame, VideoScreen.processAudioAtTime, h, hframe, haudio]

/-- C7, witness at a concrete extraction time and source. -/
theorem c7_engine_command_contract_witness :
    (VideoScreen.captureFrame 1 "1" "1.0" "/cache" .success (.parsed 200 none)
        ⟨some "file:///v.mp4", "", "", "", 0, 0, false⟩).2.engineCalls =
      [specFrameCommand "1" 1 "file:///v.mp4" "/cache"] ∧
    (VideoScreen.processAudioAtTime 1 "1" "1.0" "/cache" .success (.parsed 200 none)
        ⟨some "file:///v.mp4", "", "", "", 0, 0, false⟩).2.engineCalls =
      [specAudioCommand "1" 1 "file:///v.mp4" "/cache"] :=
  c7_engine_command_contract 1 "1" "1.0" "/cache" .success (.parsed 200 none)
    ⟨some "file:///v.mp4", "", "", "", 0, 0, false⟩ rfl

/-- C8.  Whenever a video is selected, each extraction issues exactly one
engine command (no retry); a non-success return code is logged and aborts
the sample with no upload attempt; and the `finally` cleanup clears
`isProcessing` on every exit path — engine success, engine failure, or a
thrown exception — for every upload outcome. -/
theorem c8_engine_failure_aborts_and_clears :
    ∀ (time : ℚ) (ts tfs cache : String) (eng : VideoScreen.EngineOutcome)
      (upl : VideoScreen.UploadOutcome) (s : VideoScreen.AppState),
      VideoScreen.uriFalsy s.videoUri = false →
      ((VideoScreen.captureFrame time ts tfs cache eng upl s).1.isProcessing = false ∧
       (VideoScreen.processAudioAtTime time ts tfs cache eng upl s).1.isProcessing = false ∧
       (VideoScreen.captureFrame time ts tfs cache eng upl s).2.engineCalls.length = 1 ∧
       (VideoScreen.processAudioAtTime time ts tfs cache eng upl s).2.engineCalls.length = 1 ∧
       (eng = .failure →
          (VideoScreen.captureFrame time ts tfs cache eng upl s).2.fetches = 0 ∧
          (VideoScreen.captureFrame time ts tfs cache eng upl s).2.errLogged = true ∧
          (VideoScreen.processAudioAtTime time ts tfs cache eng upl s).2.fetches = 0 ∧
          (VideoScreen.processAudioAtTime time ts tfs cache eng upl s).2.errLogged = true)) := by
  intro time ts tfs cache eng upl s h
  cases eng <;> cases upl <;>
    simp [VideoScreen.captureFrame, VideoScreen.processAudioAtTime,
      VideoScreen.processVideoFrame, VideoScreen.processAudioChunk, h]

/-- C8, witness at a concrete failing extraction. -/
theorem c8_engine_failure_aborts_and_clears_witness :
    ((VideoScreen.captureFrame 2 "2" "2.0" "/cache" .failure .networkError
        ⟨some "file:///v.mp4", "", "", "", 0, 0, false⟩).1.isProcessing = false ∧
     (VideoScreen.processAudioAtTime 2 "2" "2.0" "/cache" .failure .networkError
        ⟨some "file:///v.mp4", "", "", "", 0, 0, false⟩).1.isProcessing = false ∧
     (VideoScreen.captureFrame 2 "2" "2.0" "/cache" .failure .networkError
        ⟨some "file:///v.mp4", "", "", "", 0, 0, false⟩).2.engineCalls.length = 1 ∧
     (VideoScreen.processAudioAtTime 2 "2" "2.0" "/cache" .failure .networkError
        ⟨some "file:///v.mp4", "", "", "", 0, 0, false⟩).2.engineCalls.length = 1 ∧
     (VideoScreen.EngineOutcome.failure = .failure →
        (VideoScreen.captureFrame 2 "2" "2.0" "/cache" .failure .networkError
           ⟨some "file:///v.mp4", "", "", "", 0, 0, false⟩).2.fetches = 0 ∧
        (VideoScreen.captureFrame 2 "2" "2.0" "/cache" .failure .networkError
           ⟨some "file:///v.mp4", "", "", "", 0, 0, false⟩).2.errLogged = true ∧
        (VideoScreen.processAudioAtTime 2 "2" "2.0" "/cache" .failure .networkError
           ⟨some "file:///v.mp4", "", "", "", 0, 0, false⟩).2.fetches = 0 ∧
        (VideoScreen.processAudioAtTime 2 "2" "2.0" "/cache" .failure .networkError
           ⟨some "file:///v.mp4", "", "", "", 0, 0, false⟩).2.errLogged = true)) :=
  c8_engine_failure_aborts_and_clears 2 "2" "2.0" "/cache" .failure .networkError
    ⟨some "file:///v.mp4", "", "", "", 0, 0, false⟩ rfl

/-- C9.  The permission step is fail-closed on Android: at API 33 or above
it succeeds exactly on an explicit `GRANTED`; below 33 exactly when every
legacy permission is `GRANTED`; a thrown error from the permission API is
caught, logged, and treated as a denial (result `false`, no settings
redirect); and with a `false` permission result `pickVideo` returns with
only the denial alert — the picker never runs and the state is untouched,
so no extraction or upload can follow.  The manual-upload screen's
permission step behaves the same way. -/
theorem c9_permissions_fail_closed :
    (∀ (v : Nat) (single : Except Unit VideoScreen.PermResult)
        (multi : Except Unit (List VideoScreen.PermResult)), 33 ≤ v →
        ((VideoScreen.requestPermissions true v single multi).1 = true ↔
          single = .ok .granted)) ∧
    (∀ (v : Nat) (single : Except Unit VideoScreen.PermResult)
        (multi : Except Unit (List VideoScreen.PermResult)), v < 33 →
        ((VideoScreen.requestPermissions true v single multi).1 = true ↔
          ∃ rs, multi = .ok rs ∧ rs.all (fun r => r = .granted) = true)) ∧
    (∀ (v : Nat) (multi : Except Unit (List VideoScreen.PermResult)), 33 ≤ v →
        VideoScreen.requestPermissions true v (.error ()) multi =
          (false, { settingsRedirect := false, errLogged := true })) ∧
    (∀ (v : Nat) (single : Except Unit VideoScreen.PermResult), v < 33 →
        VideoScreen.requestPermissions true v single (.error ()) =
          (false, { settingsRedirect := false, errLogged := true })) ∧
    (∀ (cache : String) (osA : Bool) (v : Nat)
        (single : Except Unit VideoScreen.PermResult)
        (multi : Except Unit (List VideoScreen.PermResult))
        (po : VideoScreen.PickOutcome) (s : VideoScreen.AppState),
        (VideoScreen.requestPermissions osA v single multi).1 = false →
        VideoScreen.pickVideo cache osA v single multi po s =
          (s, { pickAttempted := false, alertShown := true })) ∧
    (∀ (v : Nat) (single legacy : Except Unit VideoScreen.PermResult), 33 ≤ v →
        ((MediaUpload.requestPermissions true v single legacy).1 = true ↔
          single = .ok .granted)) ∧
    (∀ (v : Nat) (legacy : Except Unit VideoScreen.PermResult), 33 ≤ v →
        MediaUpload.requestPermissions true v (.error ()) legacy =
          (false, { settingsRedirect := false, errLogged := true })) := by
  refine ⟨?_, ?_, ?_, ?_, ?_, ?_, ?_⟩
  · intro v single multi hv
    rcases single with e | r
    · simp [VideoScreen.requestPermissions, hv]
    · cases r <;> simp [VideoScreen.requestPermissions, hv]
  · intro v single multi hv
    have hv' : ¬ 33 ≤ v := by omega
    rcases multi with e | rs
    · simp [VideoScreen.requestPermissions, hv']
    · simp [VideoScreen.requestPermissions, hv']
  · intro v multi hv
    simp [VideoScreen.requestPermissions, hv]
  · intro v single hv
    have hv' : ¬ 33 ≤ v := by omega
    rcases single with e | r
    · simp [VideoScreen.requestPermissions, hv']
    · cases r <;> simp [VideoScreen.requestPermissions, hv']
  · intro cache osA v single multi po s h
    simp [VideoScreen.pickVideo, h]
  · intro v single legacy hv
    rcases single with e | r
    · simp [MediaUpload.requestPermissions, hv]
    · cases r <;> simp [MediaUpload.requestPermissions, hv]
  · intro v legacy hv
    simp [MediaUpload.requestPermissions, hv]

/-- C9, witness: a thrown permission request at API level 33 yields
`false` with the error logged and no settings redirect. -/
theorem c9_permissions_fail_closed_witness :
    VideoScreen.requestPermissions true 33 (.error ()) (.ok []) =
      (false, { settingsRedirect := false, errLogged := true }) :=
  c9_permissions_fail_closed.2.2.1 33 (.ok []) (by norm_num)

/-- C10.  With no video selected (`videoUri = null`), both `captureFrame`
and `processAudioAtTime` return immediately for every input time and
environment: no engine command is issued, no fetch is made, no file is
deleted, nothing is logged, and the state is completely unchanged. -/
theorem c10_no_source_no_effects :
    ∀ (time : ℚ) (ts tfs cache : String) (eng : VideoScreen.EngineOutcome)
      (upl : VideoScreen.UploadOutcome) (s : VideoScreen.AppState),
      VideoScreen.captureFrame time ts tfs cache eng upl { s with videoUri := none } =
        ({ s with videoUri := none },
         { engineCalls := [], fetches := 0, fileDeleted := false, errLogged := false }) ∧
      VideoScreen.processAudioAtTime time ts tfs cache eng upl { s with videoUri := none } =
        ({ s with videoUri := none },
         { engineCalls := [], fetches := 0, fileDeleted := false, errLogged := false }) :=
  fun _ _ _ _ _ _ _ => ⟨rfl, rfl⟩
